import Mathlib

/-!
Shallow embedding of the UN Comtrade fetch scripts of this repository:
`comtrade_be_hs85.py` (per-year fetch loop `call_api`, `normalize`, `main`) and
`download_comtrade_by_country.py` (per-country single-shot download
`download_country_csv`, reporter-list construction `get_reporters`).

Strings are modelled on `List Char`; Python numbers appearing in JSON cells
are modelled as `Rat` (built with `mkRat` so that everything evaluates);
the HTTP transport is modelled as a canned list of responses consumed in
order, so that "number of requests made" is the number of consumed items.
-/

namespace Comtrade

/-! ### Character-list helpers modelling Python string operations -/

/-- Value of a digit string, as computed by Python `int` on digits. -/
def digitsVal (cs : List Char) : Nat :=
  cs.foldl (fun a c => a * 10 + (c.toNat - 48)) 0

/-- `leadMatch n h` is true when `n` is an initial segment of `h`. -/
def leadMatch : List Char → List Char → Bool
  | [], _ => true
  | _ :: _, [] => false
  | a :: as, b :: bs => a == b && leadMatch as bs

/-- `findSub n h` is true when `n` occurs contiguously inside `h`
(Python's `n in h` for strings). -/
def findSub (needle : List Char) : List Char → Bool
  | [] => leadMatch needle []
  | c :: t => leadMatch needle (c :: t) || findSub needle t

/-- Python `needle in hay` on strings. -/
def strHas (needle hay : String) : Bool :=
  findSub needle.toList hay.toList

/-- Python `str.strip()` (whitespace from both ends). -/
def pyStrip (s : String) : String :=
  String.mk (((s.toList.dropWhile Char.isWhitespace).reverse.dropWhile
    Char.isWhitespace).reverse)

/-- Python `str.lower()`. -/
def pyLower (s : String) : String :=
  String.mk (s.toList.map Char.toLower)

/-- Python truthy `s and s.isdigit()` for a header string:
nonempty and all decimal digits. -/
def isDigits (s : String) : Bool :=
  !s.toList.isEmpty && s.toList.all Char.isDigit

/-! ### JSON cell values, payloads and data frames -/

/-- A JSON cell value as it appears in a Comtrade row: a string, a number,
or null/NaN ("missing"). -/
inductive Value where
  | str (s : String)
  | num (q : Rat)
  | null
deriving DecidableEq, Repr

/-- One row object of the payload's `data` array: field name / value pairs. -/
abbrev Row := List (String × Value)

/-- A parsed JSON response body; `data` is the optional `data` array
(`none` models both an absent and a null field). -/
structure Payload where
  data : Option (List Row)
deriving DecidableEq, Repr

/-- A pandas DataFrame: ordered column labels plus rows aligned to them. -/
structure DataFrame where
  cols : List String
  rows : List (List Value)
deriving DecidableEq, Repr

/-- Append a column label if it is not yet present (first-appearance order). -/
def addCol (acc : List String) (c : String) : List String :=
  if c ∈ acc then acc else acc ++ [c]

/-- Column labels of `pd.DataFrame(records)`: the union of the records' keys
in order of first appearance. -/
def recordCols (recs : List Row) : List String :=
  recs.foldl (fun acc r => (r.map Prod.fst).foldl addCol acc) []

/-- Index of a column label. -/
def colIdx (cols : List String) (c : String) : Nat :=
  cols.findIdx (· = c)

/-- Cell of an aligned row at a column label (missing → null/NaN). -/
def getCell (cols : List String) (row : List Value) (c : String) : Value :=
  row.getD (colIdx cols c) Value.null

/-- `pd.DataFrame(records)`: keys become columns, absent keys become NaN. -/
def dataFrameOfRecords (recs : List Row) : DataFrame :=
  let cols := recordCols recs
  ⟨cols, recs.map (fun r => cols.map (fun c => ((r.lookup c).getD Value.null)))⟩

/-- `df[ks]`: column projection in the order of `ks`. -/
def selectCols (df : DataFrame) (ks : List String) : DataFrame :=
  ⟨ks, df.rows.map (fun row => ks.map (fun c => getCell df.cols row c))⟩

/-- The `rename` dict of `normalize` in `comtrade_be_hs85.py`. -/
def renamePairs : List (String × String) :=
  [("period", "year"), ("reporterDesc", "reporter"), ("partnerDesc", "partner"),
   ("cmdDesc", "hs_desc_en"), ("primaryValue", "trade_value_usd"),
   ("netWgt", "net_weight_kg")]

/-- Column renaming function induced by `renamePairs`. -/
def renameFn (c : String) : String :=
  (renamePairs.lookup c).getD c

/-- `df.rename(columns=rename)`. -/
def renameCols (df : DataFrame) : DataFrame :=
  ⟨df.cols.map renameFn, df.rows⟩

/-- The `keep` allow-list of `normalize` in `comtrade_be_hs85.py`. -/
def keepList : List String :=
  ["period", "reporterDesc", "partnerDesc", "cmdCode", "cmdDesc",
   "flowCode", "flowDesc", "primaryValue", "netWgt", "qty", "qtyUnit",
   "reporterCode", "reporterISO", "partnerCode", "partnerISO"]

/-- The columns run through `pd.to_numeric(..., errors="coerce")`. -/
def numericCols : List String :=
  ["year", "trade_value_usd", "net_weight_kg", "qty"]

/-- Lenient decimal-literal parse modelling `pd.to_numeric` on a string:
optional surrounding whitespace, optional sign, digits with an optional
fractional part. Anything else is `none`. -/
def parseDecimal (s : String) : Option Rat :=
  let cs := ((s.toList.dropWhile Char.isWhitespace).reverse.dropWhile
    Char.isWhitespace).reverse
  let signed : Bool × List Char :=
    match cs with
    | '-' :: t => (true, t)
    | '+' :: t => (false, t)
    | _ => (false, cs)
  let ip := signed.2.takeWhile Char.isDigit
  let rest := signed.2.dropWhile Char.isDigit
  let mag : Option Rat :=
    match rest with
    | [] => if ip.isEmpty then none else some (mkRat (digitsVal ip) 1)
    | '.' :: fp =>
      if fp.all Char.isDigit && !(ip.isEmpty && fp.isEmpty) then
        some (mkRat (digitsVal ip * 10 ^ fp.length + digitsVal fp) (10 ^ fp.length))
      else none
    | _ => none
  mag.map (fun v => if signed.1 then -v else v)

/-- `pd.to_numeric(v, errors="coerce")` on one cell: numbers pass through,
strings are parsed leniently, anything unparsable becomes NaN (never 0). -/
def coerceValue : Value → Value
  | .num q => .num q
  | .null => .null
  | .str s =>
    match parseDecimal s with
    | some q => .num q
    | none => .null

/-- Apply `f` to the element at index `i` only. -/
def mapAt (i : Nat) (f : Value → Value) : List Value → List Value
  | [] => []
  | v :: vs =>
    match i with
    | 0 => f v :: vs
    | n + 1 => v :: mapAt n f vs

/-- `df[c] = pd.to_numeric(df[c], errors="coerce")`. -/
def toNumericCol (df : DataFrame) (c : String) : DataFrame :=
  ⟨df.cols, df.rows.map (mapAt (colIdx df.cols c) coerceValue)⟩

/-- `normalize(payload)` of `comtrade_be_hs85.py`: take the `data` array
(absent/empty → empty frame), keep the allow-listed columns that are
present, rename them, and coerce the numeric columns. -/
def normalize (p : Payload) : DataFrame :=
  let rows := p.data.getD []
  if rows = [] then ⟨[], []⟩
  else
    let df0 := dataFrameOfRecords rows
    let keep := keepList.filter (fun c => c ∈ df0.cols)
    let df1 := renameCols (selectCols df0 keep)
    numericCols.foldl (fun d c => if c ∈ d.cols then toNumericCol d c else d) df1

/-! ### The retry loop `call_api` of `comtrade_be_hs85.py`

The HTTP transport is a canned list of `Response`s consumed in order.
`callApiGo attempts resps` models the `while True` loop body with
`attempts` prior attempts already made; each consumed response is one
request. `exhausted` marks the transport running out while the loop
would have kept retrying. -/

/-- An HTTP response as seen by `call_api`: status code, optional
`Retry-After` header, parsed JSON body. -/
structure Response where
  status : Nat
  retryAfter : Option String
  body : Payload
deriving DecidableEq, Repr

/-- The 429 wait: `int(wait) if wait and wait.isdigit() else
min(60, 1 + 2 ** (attempts - 1))`. -/
def waitFor429 (h : Option String) (attempts : Nat) : Nat :=
  match h with
  | some s => if isDigits s then digitsVal s.toList else min 60 (1 + 2 ^ (attempts - 1))
  | none => min 60 (1 + 2 ^ (attempts - 1))

/-- Result of the loop: parsed body, raised `HTTPError`, or canned
transport exhausted mid-retry. -/
inductive ApiResult where
  | success (body : Payload)
  | httpError (status : Nat)
  | exhausted
deriving DecidableEq, Repr

/-- Observable outcome of a `call_api` run: requests issued, sleeps
performed (in seconds, in order), and the result. -/
structure ApiOutcome where
  requests : Nat
  waits : List Nat
  result : ApiResult
deriving DecidableEq, Repr

/-- The retry loop body of `call_api`, one canned response per request. -/
def callApiGo (attempts : Nat) : List Response → ApiOutcome
  | [] => ⟨0, [], ApiResult.exhausted⟩
  | r :: rest =>
    if r.status = 429 then
      let o := callApiGo (attempts + 1) rest
      ⟨o.requests + 1, waitFor429 r.retryAfter (attempts + 1) :: o.waits, o.result⟩
    else if 400 ≤ r.status then
      if attempts + 1 < 3 then
        let o := callApiGo (attempts + 1) rest
        ⟨o.requests + 1, min 15 (1 + 2 ^ (attempts + 1 - 1)) :: o.waits, o.result⟩
      else ⟨1, [], ApiResult.httpError r.status⟩
    else ⟨1, [], ApiResult.success r.body⟩

/-- `call_api` for one partition: the loop started with `attempts = 0`. -/
def callApi (resps : List Response) : ApiOutcome :=
  callApiGo 0 resps

/-- A payload with no `data` field. -/
def emptyPayload : Payload := ⟨none⟩

/-- A canned 429 response with an optional `Retry-After` header. -/
def resp429 (h : Option String) : Response := ⟨429, h, emptyPayload⟩

/-- A canned 200 response carrying payload `p`. -/
def respOk (p : Payload) : Response := ⟨200, none, p⟩

/-- A canned 500 response. -/
def resp500 : Response := ⟨500, none, emptyPayload⟩

/-! ### The `main` loop of `comtrade_be_hs85.py`

A fetch attempt for one year either produces a payload or raises; the
`try/except` around `call_api`/`normalize` is modelled by
`Except String Payload`. `Event`s record the observable console output
per partition and at end of run. -/

/-- Observable per-run events: a partition fetched, a partition failure
logged with its identifier and reason, the "no data" report, or the
single write with its row count. -/
inductive Event where
  | fetched (year : Nat)
  | failed (year : Nat) (msg : String)
  | noData
  | wrote (rowCount : Nat)
deriving DecidableEq, Repr

/-- Partition identifier attached to a per-partition event. -/
def eventYear : Event → Nat
  | .fetched y => y
  | .failed y _ => y
  | .noData => 0
  | .wrote _ => 0

/-- Recognizer for the write event. -/
def isWrote : Event → Bool
  | .wrote _ => true
  | _ => false

/-- `df.empty` in pandas: zero rows or zero columns. -/
def dfEmpty (df : DataFrame) : Bool :=
  df.rows.isEmpty || df.cols.isEmpty

/-- The `for y in years` loop of `main`: per year, fetch and normalize,
append the frame when non-empty, catch-and-log any failure, continue. -/
def runYears (fetch : Nat → Except String Payload) : List Nat → List DataFrame × List Event
  | [] => ([], [])
  | y :: ys =>
    let head : List DataFrame × List Event :=
      match fetch y with
      | .ok p =>
        let df := normalize p
        (if dfEmpty df then [] else [df], [Event.fetched y])
      | .error e => ([], [Event.failed y e])
    let rest := runYears fetch ys
    (head.1 ++ rest.1, head.2 ++ rest.2)

/-- Columns of `pd.concat(frames)`: union in order of first appearance. -/
def concatCols (fs : List DataFrame) : List String :=
  fs.foldl (fun acc f => f.cols.foldl addCol acc) []

/-- `pd.concat(frames, ignore_index=True)`: rows in partition-then-row
order, aligned to the united columns (absent cells become NaN). -/
def concatFrames (fs : List DataFrame) : DataFrame :=
  let cols := concatCols fs
  ⟨cols, fs.flatMap (fun f => f.rows.map (fun row => cols.map (fun c => getCell f.cols row c)))⟩

/-- The preferred display order `order` of `main`. -/
def orderList : List String :=
  ["year", "reporter", "partner", "flowDesc", "cmdCode", "hs_desc_en",
   "trade_value_usd", "net_weight_kg", "qty", "qtyUnit", "reporterCode",
   "reporterISO", "partnerCode", "partnerISO", "flowCode"]

/-- `out[[c for c in order if c in out.columns] + [c for c in out.columns
if c not in order]]`. -/
def reorderCols (df : DataFrame) : DataFrame :=
  selectCols df (orderList.filter (fun c => c ∈ df.cols)
    ++ df.cols.filter (fun c => c ∉ orderList))

/-- `range(2010, 2025)` of `main`. -/
def years : List Nat := List.range' 2010 15

/-- `main` over a given partition list: run all partitions, then either
report "no data" and write nothing, or write the concatenated,
column-reordered frame exactly once. The written file is the `some`
component. -/
def mainRun (fetch : Nat → Except String Payload) (yrs : List Nat) :
    Option DataFrame × List Event :=
  let r := runYears fetch yrs
  if r.1 = [] then (none, r.2 ++ [Event.noData])
  else
    let out := reorderCols (concatFrames r.1)
    (some out, r.2 ++ [Event.wrote out.rows.length])

/-! ### `download_comtrade_by_country.py` -/

/-- An HTTP response as seen by `download_country_csv`: status and body
text. -/
structure TextResponse where
  status : Nat
  text : String
deriving DecidableEq, Repr

/-- `text.splitlines()[0]`. -/
def firstLine (s : String) : String :=
  String.mk (s.toList.takeWhile (fun c => !(c == '\n' || c == '\r')))

/-- Body inspection of `download_country_csv`: returns whether a file is
written for this response (`True`) or the partition is skipped (`False`).
No status is ever raised and no retry happens. -/
def writeDecision (r : TextResponse) : Bool :=
  if r.status = 204 || pyStrip r.text = "" then false
  else if !strHas "Classification" (firstLine r.text)
      && (strHas "No data" r.text || strHas "Error Message" r.text) then false
  else true

/-- `download_country_csv` against a canned transport: it performs exactly
one `requests.get` (consumes at most one response), then decides whether
to write. Returns (requests made, file written). -/
def downloadCountryCsv (resps : List TextResponse) : Nat × Bool :=
  match resps with
  | [] => (0, false)
  | r :: _ => (1, writeDecision r)

/-- One entry of the `reporterAreas.json` `results` array; both fields may
be absent. -/
structure RItem where
  id : Option String
  text : Option String
deriving DecidableEq, Repr

/-- Python `int(s)` on a string: optional surrounding whitespace, optional
sign, at least one digit; `none` models the `ValueError`. -/
def parsePyInt (s : String) : Option Int :=
  let cs := (pyStrip s).toList
  let signed : Bool × List Char :=
    match cs with
    | '-' :: t => (true, t)
    | '+' :: t => (false, t)
    | _ => (false, cs)
  if !signed.2.isEmpty && signed.2.all Char.isDigit then
    some (if signed.1 then -(digitsVal signed.2 : Int) else (digitsVal signed.2 : Int))
  else none

/-- The filtering pass of `get_reporters`: parse the id (skip on
`KeyError`/`ValueError`), strip the name, keep positive ids with a
nonempty name not containing "all" (case-insensitively). -/
def filterReporters (items : List RItem) : List (Int × String) :=
  items.filterMap (fun it =>
    match it.id with
    | none => none
    | some s =>
      match parsePyInt s with
      | none => none
      | some i =>
        let name := pyStrip ((it.text).getD "")
        if 0 < i ∧ name ≠ "" ∧ strHas "all" (pyLower name) = false then some (i, name)
        else none)

/-- Insert into a sorted list according to a Boolean comparator. -/
def orderedIns {α : Type} (le : α → α → Bool) (a : α) : List α → List α
  | [] => [a]
  | b :: l => if le a b then a :: b :: l else b :: orderedIns le a l

/-- Insertion sort with a Boolean comparator (models `list.sort`). -/
def insSort {α : Type} (le : α → α → Bool) : List α → List α
  | [] => []
  | a :: l => orderedIns le a (insSort le l)

/-- Code-point lexicographic order on char lists (Python string `<=`). -/
def charListLe : List Char → List Char → Bool
  | [], _ => true
  | _ :: _, [] => false
  | a :: as, b :: bs => a.toNat < b.toNat || (a == b && charListLe as bs)

/-- `key=lambda x: x[1]` comparison of `get_reporters`. -/
def nameLe (a b : Int × String) : Bool :=
  charListLe a.2.toList b.2.toList

/-- `get_reporters` applied to an already-fetched `results` array:
filter, then sort by name. No deduplication is performed. -/
def getReporters (items : List RItem) : List (Int × String) :=
  insSort nameLe (filterReporters items)

/-! ### Fixtures used by concrete test cases -/

/-- First 2010 row of the end-to-end fixture. -/
def exRow1 : Row :=
  [("period", Value.num (mkRat 2010 1)), ("reporterDesc", Value.str "Belgium"),
   ("partnerDesc", Value.str "World"), ("flowDesc", Value.str "Import"),
   ("primaryValue", Value.num (mkRat 5 1))]

/-- Second 2010 row of the end-to-end fixture. -/
def exRow2 : Row :=
  [("period", Value.num (mkRat 2010 1)), ("reporterDesc", Value.str "Belgium"),
   ("partnerDesc", Value.str "World"), ("flowDesc", Value.str "Import"),
   ("primaryValue", Value.num (mkRat 7 1))]

/-- End-to-end fixture fetch: 2010 yields two rows, every other year an
empty `data` array. -/
def exFetch : Nat → Except String Payload := fun y =>
  if y = 2010 then Except.ok ⟨some [exRow1, exRow2]⟩ else Except.ok ⟨some []⟩

/-! ### Lemmas about the retry loop -/

/-- Unfolding: a 429 response sleeps the computed wait and loops. -/
theorem go429 (a : Nat) (h : Option String) (rest : List Response) :
    callApiGo a (resp429 h :: rest) =
      ⟨(callApiGo (a + 1) rest).requests + 1,
       waitFor429 h (a + 1) :: (callApiGo (a + 1) rest).waits,
       (callApiGo (a + 1) rest).result⟩ := rfl

/-- Unfolding: a 200 response returns its parsed body at once. -/
theorem goOk (a : Nat) (p : Payload) (rest : List Response) :
    callApiGo a (respOk p :: rest) = ⟨1, [], ApiResult.success p⟩ := rfl

/-- Unfolding: a non-429 error response retries while fewer than three
attempts were made, else raises. -/
theorem goErr (a : Nat) (r : Response) (rest : List Response)
    (h1 : r.status ≠ 429) (h2 : 400 ≤ r.status) :
    callApiGo a (r :: rest) =
      if a + 1 < 3 then
        ⟨(callApiGo (a + 1) rest).requests + 1,
         min 15 (1 + 2 ^ (a + 1 - 1)) :: (callApiGo (a + 1) rest).waits,
         (callApiGo (a + 1) rest).result⟩
      else ⟨1, [], ApiResult.httpError r.status⟩ := by
  simp [callApiGo, h1, h2]

/-- A block of `k` header-less 429 responses is consumed in full, with the
exponential capped waits, before the loop goes on. -/
theorem goRep (k : Nat) : ∀ (a : Nat) (rest : List Response),
    callApiGo a (List.replicate k (resp429 none) ++ rest) =
      ⟨(callApiGo (a + k) rest).requests + k,
       (List.range' a k).map (fun i => min 60 (1 + 2 ^ i)) ++ (callApiGo (a + k) rest).waits,
       (callApiGo (a + k) rest).result⟩ := by
  induction k with
  | zero => intro a rest; simp
  | succ n ih =>
    intro a rest
    rw [List.replicate_succ, List.cons_append, go429, ih (a + 1) rest]
    have hwt : waitFor429 none (a + 1) = min 60 (1 + 2 ^ a) := by
      simp [waitFor429]
    have ha : a + 1 + n = a + (n + 1) := by omega
    rw [hwt, ha, List.range'_succ a n 1]
    simp [Nat.add_assoc]

/-- Any number of 429s before a 200 still succeeds: `k + 1` requests. -/
theorem callApi_rep_ok (k : Nat) (p : Payload) :
    callApi (List.replicate k (resp429 none) ++ [respOk p]) =
      ⟨k + 1, (List.range k).map (fun i => min 60 (1 + 2 ^ i)), ApiResult.success p⟩ := by
  rw [callApi, goRep k 0 [respOk p], goOk]
  simp [List.range_eq_range', Nat.add_comm]

/-- Two or more 429s exhaust the shared attempt budget: the next non-429
error response is raised at once. -/
theorem callApi_rep_err (k : Nat) (e : Response) (rest : List Response)
    (hk : 2 ≤ k) (h1 : e.status ≠ 429) (h2 : 400 ≤ e.status) :
    callApi (List.replicate k (resp429 none) ++ e :: rest) =
      ⟨k + 1, (List.range k).map (fun i => min 60 (1 + 2 ^ i)), ApiResult.httpError e.status⟩ := by
  rw [callApi, goRep k 0 (e :: rest), goErr (0 + k) e rest h1 h2]
  rw [if_neg (by omega : ¬ (0 + k + 1 < 3))]
  simp [List.range_eq_range', Nat.add_comm]

/-- Three consecutive non-429 error responses: exactly three requests,
two short capped waits, then the third error is raised. -/
theorem callApi_three_errors (e1 e2 e3 : Response) (rest : List Response)
    (h1 : e1.status ≠ 429) (h2 : 400 ≤ e1.status)
    (h3 : e2.status ≠ 429) (h4 : 400 ≤ e2.status)
    (h5 : e3.status ≠ 429) (h6 : 400 ≤ e3.status) :
    callApi (e1 :: e2 :: e3 :: rest) =
      ⟨3, [min 15 (1 + 2 ^ 0), min 15 (1 + 2 ^ 1)], ApiResult.httpError e3.status⟩ := by
  rw [callApi, goErr 0 e1 _ h1 h2, if_pos (by norm_num)]
  rw [goErr 1 e2 _ h3 h4, if_pos (by norm_num)]
  rw [goErr 2 e3 _ h5 h6, if_neg (by norm_num)]

/-- An absent or empty `data` array normalizes to the empty frame. -/
theorem normalize_empty (p : Payload) (h : p.data.getD [] = []) :
    normalize p = ⟨[], []⟩ := by
  simp [normalize, h]

/-- Every partition is attempted, in order: the per-partition events map
back onto the partition list. -/
theorem runYears_events_years (fetch : Nat → Except String Payload) :
    ∀ yrs : List Nat, ((runYears fetch yrs).2).map eventYear = yrs := by
  intro yrs
  induction yrs with
  | nil => simp [runYears]
  | cons y ys ih =>
    cases hf : fetch y <;> simp [runYears, hf, eventYear, ih]

/-- A failing partition is logged with its identifier and reason. -/
theorem runYears_failed_mem (fetch : Nat → Except String Payload) :
    ∀ (yrs : List Nat) (y : Nat) (e : String), y ∈ yrs → fetch y = Except.error e →
      Event.failed y e ∈ (runYears fetch yrs).2 := by
  intro yrs
  induction yrs with
  | nil => intro y e h; simp at h
  | cons z zs ih =>
    intro y e hmem hf
    rcases List.mem_cons.1 hmem with h | h
    · subst h
      simp [runYears, hf]
    · cases hfz : fetch z with
      | ok p =>
        simp [runYears, hfz]
        exact ih y e h hf
      | error msg =>
        simp [runYears, hfz]
        exact Or.inr (ih y e h hf)

/-- Only non-empty frames are ever accumulated. -/
theorem runYears_frames_sound (fetch : Nat → Except String Payload) :
    ∀ (yrs : List Nat) (f : DataFrame), f ∈ (runYears fetch yrs).1 → dfEmpty f = false := by
  intro yrs
  induction yrs with
  | nil => intro f h; simp [runYears] at h
  | cons y ys ih =>
    intro f hmem
    cases hf : fetch y with
    | ok p =>
      rw [runYears] at hmem
      simp only [hf] at hmem
      by_cases hd : dfEmpty (normalize p)
      · simp [hd] at hmem
        exact ih f hmem
      · simp [hd] at hmem
        rcases hmem with h | h
        · subst h; simpa using hd
        · exact ih f h
    | error e =>
      rw [runYears] at hmem
      simp only [hf] at hmem
      simp at hmem
      exact ih f hmem

/-- The per-partition loop never writes. -/
theorem runYears_no_wrote (fetch : Nat → Except String Payload) :
    ∀ yrs : List Nat, ((runYears fetch yrs).2).countP isWrote = 0 := by
  intro yrs
  induction yrs with
  | nil => simp [runYears]
  | cons y ys ih =>
    cases hf : fetch y <;>
      simp [runYears, hf, List.countP_append, ih, isWrote, List.countP_cons]

/-- Column reordering keeps the row count. -/
theorem reorder_rows_len (df : DataFrame) :
    (reorderCols df).rows.length = df.rows.length := by
  simp [reorderCols, selectCols]

/-- Concatenation row count is the sum of the partitions' row counts. -/
theorem concat_rows_len (fs : List DataFrame) :
    (concatFrames fs).rows.length = (fs.map (fun f => f.rows.length)).sum := by
  simp [concatFrames, List.length_flatMap, Function.comp_def]


/-- When at least one frame was accumulated, `main` writes once. -/
theorem mainRun_some (fetch : Nat → Except String Payload) (yrs : List Nat)
    (h : (runYears fetch yrs).1 ≠ []) :
    mainRun fetch yrs =
      (some (reorderCols (concatFrames (runYears fetch yrs).1)),
       (runYears fetch yrs).2
         ++ [Event.wrote (reorderCols (concatFrames (runYears fetch yrs).1)).rows.length]) := by
  simp [mainRun, h]

/-- When no frame was accumulated, `main` reports "no data" and writes
nothing. -/
theorem mainRun_none (fetch : Nat → Except String Payload) (yrs : List Nat)
    (h : (runYears fetch yrs).1 = []) :
    mainRun fetch yrs = (none, (runYears fetch yrs).2 ++ [Event.noData]) := by
  simp [mainRun, h]

/-- The numeric-coercion pass does not change the column labels. -/
theorem numericFold_cols (l : List String) : ∀ d : DataFrame,
    (l.foldl (fun d c => if c ∈ d.cols then toNumericCol d c else d) d).cols = d.cols := by
  induction l with
  | nil => intro d; rfl
  | cons c cs ih =>
    intro d
    by_cases h : c ∈ d.cols
    · rw [List.foldl_cons, if_pos h, ih]; rfl
    · rw [List.foldl_cons, if_neg h, ih]

/-- Every column of a normalized frame comes from the renamed allow-list. -/
theorem normalize_cols_subset (p : Payload) (c : String)
    (hc : c ∈ (normalize p).cols) : c ∈ keepList.map renameFn := by
  by_cases h : p.data.getD [] = []
  · rw [normalize_empty p h] at hc; simp at hc
  · simp only [normalize, if_neg h] at hc
    rw [numericFold_cols] at hc
    simp only [renameCols, selectCols] at hc
    rcases List.mem_map.1 hc with ⟨x, hx, rfl⟩
    exact List.mem_map_of_mem renameFn (List.mem_of_mem_filter hx)

/-- Inserting into a sorted list permutes consing. -/
theorem orderedIns_perm {α : Type} (le : α → α → Bool) (a : α) :
    ∀ l : List α, (orderedIns le a l).Perm (a :: l) := by
  intro l
  induction l with
  | nil => simp [orderedIns]
  | cons b t ih =>
    by_cases h : le a b
    · simp [orderedIns, h]
    · rw [orderedIns, if_neg h]
      exact (ih.cons b).trans (List.Perm.swap a b t)

/-- Insertion sort permutes its input. -/
theorem insSort_perm {α : Type} (le : α → α → Bool) :
    ∀ l : List α, (insSort le l).Perm l := by
  intro l
  induction l with
  | nil => simp [insSort]
  | cons a t ih =>
    rw [insSort]
    exact (orderedIns_perm le a (insSort le t)).trans (ih.cons a)


/-- C1: in `call_api`, a 429 response is always retried, without any bound
on the number of attempts; when the `Retry-After` header is a digit string
the loop waits exactly that many seconds, otherwise it waits the
exponentially increasing duration `min 60 (1 + 2 ^ (attempts - 1))`; on
the canned sequence `[429 (Retry-After = 3), 429 (no header), 200]` it
waits 3 then 3 (the exponential fallback at the second attempt) and
returns the parsed payload after exactly 3 requests. -/
theorem c1_throttle_retry_unbounded :
    (∀ (s : String) (rest : List Response), isDigits s = true →
        (callApi (resp429 (some s) :: rest)).waits.head? = some (digitsVal s.toList))
    ∧ (∀ rest : List Response,
        (callApi (resp429 none :: rest)).waits.head? = some (min 60 (1 + 2 ^ 0)))
    ∧ (∀ (s : String) (rest : List Response), isDigits s = false →
        (callApi (resp429 (some s) :: rest)).waits.head? = some (min 60 (1 + 2 ^ 0)))
    ∧ (∀ (k : Nat) (p : Payload),
        callApi (List.replicate k (resp429 none) ++ [respOk p]) =
          ⟨k + 1, (List.range k).map (fun i => min 60 (1 + 2 ^ i)), ApiResult.success p⟩)
    ∧ (∀ p : Payload,
        callApi [resp429 (some "3"), resp429 none, respOk p] =
          ⟨3, [3, 3], ApiResult.success p⟩) := by
  refine ⟨?_, ?_, ?_, callApi_rep_ok, fun _ => rfl⟩
  · intro s rest hs
    rw [callApi, go429]
    simp [waitFor429, hs]
  · intro rest
    rw [callApi, go429]
    simp [waitFor429]
  · intro s rest hs
    rw [callApi, go429]
    simp [waitFor429, hs]

/-- Witness for C1 at the concrete header "7". -/
theorem c1_throttle_retry_unbounded_witness :
    (callApi [resp429 (some "7")]).waits.head? = some 7 := by
  have h := c1_throttle_retry_unbounded.1 "7" [] (by decide)
  exact h.trans (by decide)

/-- C2: in `call_api`, a non-429 error response is retried with the
shorter wait `min 15 (1 + 2 ^ (attempts - 1))` but only while fewer than
three attempts were made; three consecutive error responses make exactly
3 requests and then raise, a fourth canned response is never consumed. -/
theorem c2_bounded_error_retry :
    (∀ (e1 e2 e3 : Response) (rest : List Response),
        e1.status ≠ 429 → 400 ≤ e1.status →
        e2.status ≠ 429 → 400 ≤ e2.status →
        e3.status ≠ 429 → 400 ≤ e3.status →
        callApi (e1 :: e2 :: e3 :: rest) =
          ⟨3, [min 15 (1 + 2 ^ 0), min 15 (1 + 2 ^ 1)], ApiResult.httpError e3.status⟩)
    ∧ (∀ p : Payload,
        callApi [resp500, resp500, resp500, respOk p] =
          ⟨3, [2, 3], ApiResult.httpError 500⟩) :=
  ⟨fun e1 e2 e3 rest h1 h2 h3 h4 h5 h6 =>
      callApi_three_errors e1 e2 e3 rest h1 h2 h3 h4 h5 h6,
   fun _ => rfl⟩

/-- Witness for C2 on three 500s. -/
theorem c2_bounded_error_retry_witness :
    callApi [resp500, resp500, resp500] =
      ⟨3, [min 15 (1 + 2 ^ 0), min 15 (1 + 2 ^ 1)], ApiResult.httpError resp500.status⟩ :=
  c2_bounded_error_retry.1 resp500 resp500 resp500 [] (by decide) (by decide)
    (by decide) (by decide) (by decide) (by decide)

/-- C3: `normalize` keeps only (renamed) allow-listed fields, a
syntactically invalid numeric cell becomes missing (null), never zero,
and on the round-trip example `period = 2012`,
`primaryValue = "1000.5"`, `netWgt = "abc"` (plus an unknown extra field)
the record has `year = 2012`, `trade_value_usd = 1000.5`
(`mkRat 10005 10`), `net_weight_kg` missing, and the extra field dropped. -/
theorem c3_normalize_policy :
    (∀ (p : Payload) (c : String), c ∈ (normalize p).cols → c ∈ keepList.map renameFn)
    ∧ (∀ s : String, parseDecimal s = none → coerceValue (Value.str s) = Value.null)
    ∧ normalize ⟨some [[("period", Value.num (mkRat 2012 1)),
          ("primaryValue", Value.str "1000.5"), ("netWgt", Value.str "abc"),
          ("extraField", Value.str "dropped")]]⟩ =
        ⟨["year", "trade_value_usd", "net_weight_kg"],
         [[Value.num (mkRat 2012 1), Value.num (mkRat 10005 10), Value.null]]⟩ := by
  refine ⟨fun p c hc => normalize_cols_subset p c hc, ?_, by decide⟩
  intro s h
  simp [coerceValue, h]

/-- Witness for C3: a normalized column is in the renamed allow-list, and
the unparsable "abc" coerces to missing. -/
theorem c3_normalize_policy_witness :
    "year" ∈ keepList.map renameFn ∧ coerceValue (Value.str "abc") = Value.null :=
  ⟨c3_normalize_policy.1 ⟨some [[("period", Value.num (mkRat 2012 1))]]⟩ "year" (by decide),
   c3_normalize_policy.2.1 "abc" (by decide)⟩

/-- C4 counterexample: in `download_comtrade_by_country.py` a throttling
error response is NOT retried — `download_country_csv` consumes exactly
one canned response (one request) even though a successful response is
queued right behind it, so the claim that both API scripts use the
retry-with-backoff fetch loop fails. -/
theorem c4_counterexample :
    downloadCountryCsv [⟨429, "Error Message: too many requests"⟩,
        ⟨200, "Classification,Year,Trade Value\nHS,2012,1000"⟩] = (1, false)
    ∧ (downloadCountryCsv [⟨429, "Error Message: too many requests"⟩,
        ⟨200, "Classification,Year,Trade Value\nHS,2012,1000"⟩]).1 ≠ 2 := by
  decide

/-- C4 amended: only the per-year script (`call_api`) retries throttling
and transient errors with backoff; the per-country script issues exactly
one request per partition (never more), with no retry of any error
class. -/
theorem c4_amended_retry_only_per_year :
    (∀ resps : List TextResponse, (downloadCountryCsv resps).1 = min resps.length 1)
    ∧ (∀ (p : Payload) (rest : List Response),
        callApi (resp429 none :: respOk p :: rest) =
          ⟨2, [min 60 (1 + 2 ^ 0)], ApiResult.success p⟩)
    ∧ (∀ (e : Response) (p : Payload) (rest : List Response),
        e.status ≠ 429 → 400 ≤ e.status →
        callApi (e :: respOk p :: rest) =
          ⟨2, [min 15 (1 + 2 ^ 0)], ApiResult.success p⟩) := by
  refine ⟨?_, ?_, ?_⟩
  · intro resps
    cases resps with
    | nil => rfl
    | cons r t =>
      simp [downloadCountryCsv]
  · intro p rest
    rw [callApi, go429, goOk]
    simp [waitFor429]
  · intro e p rest h1 h2
    rw [callApi, goErr 0 e _ h1 h2, if_pos (by norm_num), goOk]

/-- Witness for C4's amended claim: one 500 then success in `call_api`. -/
theorem c4_amended_retry_only_per_year_witness :
    callApi [resp500, respOk emptyPayload] =
      ⟨2, [min 15 (1 + 2 ^ 0)], ApiResult.success emptyPayload⟩ :=
  c4_amended_retry_only_per_year.2.2 resp500 emptyPayload [] (by decide) (by decide)

/-- C5: every partition is attempted exactly once in order regardless of
failures, and a failing partition is logged with its identifier and
reason — a single failure never aborts the run. -/
theorem c5_failure_isolation :
    ∀ (fetch : Nat → Except String Payload) (yrs : List Nat),
      ((runYears fetch yrs).2).map eventYear = yrs
      ∧ (∀ (y : Nat) (e : String), y ∈ yrs → fetch y = Except.error e →
          Event.failed y e ∈ (runYears fetch yrs).2) :=
  fun fetch yrs =>
    ⟨runYears_events_years fetch yrs,
     fun y e h1 h2 => runYears_failed_mem fetch yrs y e h1 h2⟩

/-- Witness for C5: with every partition failing, the second partition's
failure is still logged. -/
theorem c5_failure_isolation_witness :
    Event.failed 2011 "boom" ∈ (runYears (fun _ => Except.error "boom") [2010, 2011]).2 :=
  (c5_failure_isolation (fun _ => Except.error "boom") [2010, 2011]).2 2011 "boom"
    (by decide) rfl

/-- C6: when zero partitions yielded records the run reports "no data" and
writes no file; and every written file has at least one data row. -/
theorem c6_no_data_no_file :
    ∀ (fetch : Nat → Except String Payload) (yrs : List Nat),
      ((runYears fetch yrs).1 = [] →
        (mainRun fetch yrs).1 = none ∧ Event.noData ∈ (mainRun fetch yrs).2)
      ∧ (∀ out : DataFrame, (mainRun fetch yrs).1 = some out → out.rows ≠ []) := by
  intro fetch yrs
  constructor
  · intro h
    rw [mainRun_none fetch yrs h]
    simp
  · intro out hout
    by_cases hfr : (runYears fetch yrs).1 = []
    · rw [mainRun_none fetch yrs hfr] at hout
      simp at hout
    · rw [mainRun_some fetch yrs hfr] at hout
      simp only [Option.some.injEq] at hout
      subst hout
      cases hc : (runYears fetch yrs).1 with
      | nil => exact absurd hc hfr
      | cons f fs =>
        have hf : dfEmpty f = false :=
          runYears_frames_sound fetch yrs f (by rw [hc]; exact List.mem_cons_self f fs)
        simp only [dfEmpty, Bool.or_eq_false_iff] at hf
        have hlen : 0 < f.rows.length := by
          cases hr : f.rows with
          | nil => rw [hr] at hf; simp at hf
          | cons v vs => simp [hr]
        refine List.length_pos.mp ?_
        rw [reorder_rows_len, concat_rows_len, List.map_cons, List.sum_cons]
        omega

/-- Witness for C6: a run where the only partition fails writes nothing
and reports "no data". -/
theorem c6_no_data_no_file_witness :
    (mainRun (fun _ => Except.error "x") [2010]).1 = none
    ∧ Event.noData ∈ (mainRun (fun _ => Except.error "x") [2010]).2 :=
  (c6_no_data_no_file (fun _ => Except.error "x") [2010]).1 (by decide)

/-- C7: when at least one partition yielded records, the output is written
exactly once, its row count is the sum of the partitions' row counts
(partition-then-row concatenation), and its columns are the known columns
first in the fixed order followed by the remaining columns in their
natural order; the end-to-end fixture (2010 → 2 rows, 2011 → 0 rows)
writes 2 rows with the specified leading columns and reports "wrote 2". -/
theorem c7_single_ordered_write :
    (∀ (fetch : Nat → Except String Payload) (yrs : List Nat),
        (runYears fetch yrs).1 ≠ [] →
        (mainRun fetch yrs).1 = some (reorderCols (concatFrames (runYears fetch yrs).1))
        ∧ (reorderCols (concatFrames (runYears fetch yrs).1)).rows.length
            = (((runYears fetch yrs).1).map (fun f => f.rows.length)).sum
        ∧ (reorderCols (concatFrames (runYears fetch yrs).1)).cols
            = orderList.filter (fun c => c ∈ (concatFrames (runYears fetch yrs).1).cols)
              ++ ((concatFrames (runYears fetch yrs).1).cols).filter (fun c => c ∉ orderList)
        ∧ ((mainRun fetch yrs).2).countP isWrote = 1)
    ∧ mainRun exFetch [2010, 2011] =
        (some ⟨["year", "reporter", "partner", "flowDesc", "trade_value_usd"],
          [[Value.num (mkRat 2010 1), Value.str "Belgium", Value.str "World",
            Value.str "Import", Value.num (mkRat 5 1)],
           [Value.num (mkRat 2010 1), Value.str "Belgium", Value.str "World",
            Value.str "Import", Value.num (mkRat 7 1)]]⟩,
         [Event.fetched 2010, Event.fetched 2011, Event.wrote 2]) := by
  constructor
  · intro fetch yrs h
    refine ⟨?_, (reorder_rows_len _).trans (concat_rows_len _), rfl, ?_⟩
    · rw [mainRun_some fetch yrs h]
    · rw [mainRun_some fetch yrs h]
      simp [List.countP_append, runYears_no_wrote, List.countP_cons, isWrote]
  · decide

/-- Witness for C7 at the end-to-end fixture. -/
theorem c7_single_ordered_write_witness :
    (mainRun exFetch [2010, 2011]).1 =
        some (reorderCols (concatFrames (runYears exFetch [2010, 2011]).1))
    ∧ ((mainRun exFetch [2010, 2011]).2).countP isWrote = 1 :=
  ⟨(c7_single_ordered_write.1 exFetch [2010, 2011] (by decide)).1,
   (c7_single_ordered_write.1 exFetch [2010, 2011] (by decide)).2.2.2⟩

/-- C8: a 2xx payload with an absent or empty `data` array normalizes to
zero records without error, and such a partition contributes nothing to
the accumulated frames (only a `fetched` event). -/
theorem c8_empty_result_not_error :
    (∀ p : Payload, p.data.getD [] = [] → normalize p = ⟨[], []⟩)
    ∧ (∀ (fetch : Nat → Except String Payload) (yrs : List Nat) (y : Nat) (p : Payload),
        fetch y = Except.ok p → p.data.getD [] = [] →
        (runYears fetch (y :: yrs)).1 = (runYears fetch yrs).1
        ∧ (runYears fetch (y :: yrs)).2 = Event.fetched y :: (runYears fetch yrs).2) := by
  refine ⟨fun p h => normalize_empty p h, ?_⟩
  intro fetch yrs y p hf hd
  constructor <;> simp [runYears, hf, normalize_empty p hd, dfEmpty]

/-- Witness for C8: an explicit empty `data` array. -/
theorem c8_empty_result_not_error_witness :
    normalize ⟨some []⟩ = ⟨[], []⟩
    ∧ (runYears (fun _ => Except.ok ⟨some []⟩) [2012]).1
        = (runYears (fun _ => Except.ok ⟨some []⟩) []).1 :=
  ⟨c8_empty_result_not_error.1 ⟨some []⟩ rfl,
   (c8_empty_result_not_error.2 (fun _ => Except.ok ⟨some []⟩) [] 2012 ⟨some []⟩ rfl rfl).1⟩

/-- C9 counterexample: `get_reporters` never deduplicates, so a duplicated
upstream entry yields a repeated partition — "no partition repeats within
a run" fails on the code. -/
theorem c9_counterexample :
    getReporters [⟨some "5", some "France"⟩, ⟨some "5", some "France"⟩]
      = [(5, "France"), (5, "France")]
    ∧ ¬ (getReporters [⟨some "5", some "France"⟩, ⟨some "5", some "France"⟩]).Nodup := by
  decide

/-- C9 amended: the year partitions 2010–2024 are a fixed duplicate-free
list; the reporter partitions are a deterministic name-sorted permutation
of the filtered upstream list, hence repeat-free whenever the filtered
upstream entries are pairwise distinct (duplicates, if present upstream,
are preserved). -/
theorem c9_amended_deterministic_partitions :
    years = [2010, 2011, 2012, 2013, 2014, 2015, 2016, 2017, 2018, 2019,
      2020, 2021, 2022, 2023, 2024]
    ∧ years.Nodup
    ∧ (∀ items : List RItem, (getReporters items).Perm (filterReporters items))
    ∧ (∀ items : List RItem, (filterReporters items).Nodup → (getReporters items).Nodup) := by
  refine ⟨by decide, by decide,
    fun items => insSort_perm nameLe (filterReporters items), ?_⟩
  intro items h
  exact (insSort_perm nameLe (filterReporters items)).symm.nodup h

/-- Witness for C9's amended claim on a duplicate-free upstream list. -/
theorem c9_amended_deterministic_partitions_witness :
    (getReporters [⟨some "5", some "France"⟩, ⟨some "7", some "Belgium"⟩]).Nodup :=
  c9_amended_deterministic_partitions.2.2.2
    [⟨some "5", some "France"⟩, ⟨some "7", some "Belgium"⟩] (by decide)

/-- C10: `call_api` shares one attempt counter across error classes: after
two or more 429 retries, the first non-429 error response is raised at
once (requests = number of 429s + 1), with no retry of its own class; on
`[429, 429, 500, 200]` the 200 is never requested. -/
theorem c10_shared_attempt_counter :
    (∀ (k : Nat) (e : Response) (rest : List Response),
        2 ≤ k → e.status ≠ 429 → 400 ≤ e.status →
        callApi (List.replicate k (resp429 none) ++ e :: rest) =
          ⟨k + 1, (List.range k).map (fun i => min 60 (1 + 2 ^ i)),
           ApiResult.httpError e.status⟩)
    ∧ (∀ p : Payload,
        callApi [resp429 none, resp429 none, resp500, respOk p] =
          ⟨3, [2, 3], ApiResult.httpError 500⟩) :=
  ⟨fun k e rest hk h1 h2 => callApi_rep_err k e rest hk h1 h2, fun _ => rfl⟩

/-- Witness for C10 at two 429s then a 500. -/
theorem c10_shared_attempt_counter_witness :
    callApi (List.replicate 2 (resp429 none) ++ resp500 :: [respOk emptyPayload]) =
      ⟨2 + 1, (List.range 2).map (fun i => min 60 (1 + 2 ^ i)),
       ApiResult.httpError resp500.status⟩ :=
  c10_shared_attempt_counter.1 2 resp500 [respOk emptyPayload] (by decide)
    (by decide) (by decide)


end Comtrade
